import Mathlib

/-!
# Verification of the odyssey-lift-off-server GraphQL gateway

A shallow embedding of the repository's two source files:

* `src/datasources/track-api.js` — the Upstream Client (`TrackAPI`), which maps
  six catalog operations to HTTP requests against a fixed base URL; and
* the resolver map (`resolvers.js`) — `Query`, `Mutation`, `Track` and `Module`
  field resolvers that delegate to the Upstream Client through the
  `dataSources` handle in the GraphQL context.

Modelling choices:

* Decoded JSON bodies are lazily-typed values (`JSVal`), as in the source.
* A thrown JavaScript error is a `JSError`; per the design document, the
  Upstream Client produces `UpstreamHTTPError {status, body}` (whose
  `extensions.response` carries the HTTP status and raw body — this structure
  is also documented in the resolver source's own comment) and
  `UpstreamTransportError {cause}` for network-level faults, which carries no
  `extensions.response` structure.
* Property access on a possibly-undefined JavaScript value either yields the
  property or raises a `TypeError`; the mutation resolver's catch branch
  performs two such accesses (`err.extensions.response` and then
  `.status`/`.body`), which we model explicitly.
* Each resolver is a function of its parent/arguments and an oracle
  `DataSources` giving the outcome of any HTTP request; a resolver's run
  records the list of requests it issues, so that call counts ("exactly one
  call", "no external call") are part of the embedding.
-/

/-- A lazily-typed decoded JSON value, as handled by the JavaScript source. -/
inductive JSVal where
  | null
  | bool (b : Bool)
  | num (n : Int)
  | str (s : String)
  | arr (elems : List JSVal)
  | obj (fields : List (String × JSVal))

/-- First-match lookup of a property in an object's field list. -/
def lookupField : List (String × JSVal) → String → Option JSVal
  | [], _ => none
  | (k, v) :: rest, key => if k = key then some v else lookupField rest key

/-- JavaScript property read on a decoded value: objects expose their fields,
every other value has no properties. -/
def JSVal.getField : JSVal → String → Option JSVal
  | .obj fields, key => lookupField fields key
  | _, _ => none

/-- The `{status, body}` record that `apollo-datasource-rest` places under
`err.extensions.response` for a non-2xx HTTP response (see the resolver
source's comment on the catch branch). -/
structure UpstreamResponse where
  status : Int
  body : String
deriving DecidableEq

/-- The `extensions` property of a thrown error; `response` is present only
for HTTP-level failures. -/
structure ErrorExtensions where
  response : Option UpstreamResponse
deriving DecidableEq

/-- A thrown JavaScript error value: its class name, an informational string,
and the optional `extensions` property. -/
structure JSError where
  name : String
  info : String
  extensions : Option ErrorExtensions
deriving DecidableEq

/-- The error the Upstream Client throws for a non-2xx HTTP response: it
carries `extensions.response` with the numeric status and the raw body. -/
def UpstreamHTTPError (status : Int) (body : String) : JSError :=
  { name := "UpstreamHTTPError", info := "",
    extensions := some { response := some { status := status, body := body } } }

/-- The error the Upstream Client throws for a network-level fault. Per the
design document it carries only a cause and no structured
`extensions.response`. -/
def UpstreamTransportError (cause : String) : JSError :=
  { name := "UpstreamTransportError", info := cause, extensions := none }

/-- The `TypeError` JavaScript raises when a property of `undefined` is read. -/
def jsTypeError (msg : String) : JSError :=
  { name := "TypeError", info := msg, extensions := none }

/-- Message of the `TypeError` raised by reading `.response` off an error
whose `extensions` property is undefined. -/
def msgReadingResponse : String :=
  "Cannot read properties of undefined (reading response)"

/-- Message of the `TypeError` raised by reading `.status` off an undefined
`extensions.response`. -/
def msgReadingStatus : String :=
  "Cannot read properties of undefined (reading status)"

/-- HTTP methods used by the Upstream Client. -/
inductive HttpMethod where
  | get
  | patch
deriving DecidableEq

/-- An HTTP request issued by the Upstream Client: method, path relative to
the fixed base URL, and optional request body. -/
structure HttpRequest where
  method : HttpMethod
  path : String
  body : Option JSVal

/-- The fixed base URL configured in the `TrackAPI` constructor. -/
def TrackAPI.baseURL : String :=
  "https://odyssey-lift-off-rest-api.herokuapp.com/"

/-- `getTracksForHome()` → `GET tracks`. -/
def TrackAPI.getTracksForHome : HttpRequest :=
  { method := .get, path := "tracks", body := none }

/-- `getAuthor(authorId)` → `GET author/{authorId}`. -/
def TrackAPI.getAuthor (authorId : String) : HttpRequest :=
  { method := .get, path := "author/" ++ authorId, body := none }

/-- `getTrack(trackId)` → `GET track/{trackId}`. -/
def TrackAPI.getTrack (trackId : String) : HttpRequest :=
  { method := .get, path := "track/" ++ trackId, body := none }

/-- `getTrackModules(trackId)` → `GET track/{trackId}/modules`. -/
def TrackAPI.getTrackModules (trackId : String) : HttpRequest :=
  { method := .get, path := "track/" ++ trackId ++ "/modules", body := none }

/-- `getModule(moduleId)` → `GET module/{moduleId}`. -/
def TrackAPI.getModule (moduleId : String) : HttpRequest :=
  { method := .get, path := "module/" ++ moduleId, body := none }

/-- `incrementTrackViews(trackId)` → `PATCH track/{trackId}/numberOfViews`
with no body. -/
def TrackAPI.incrementTrackViews (trackId : String) : HttpRequest :=
  { method := .patch, path := "track/" ++ trackId ++ "/numberOfViews", body := none }

/-- Oracle for the upstream REST service: the outcome (decoded body, or thrown
error) of each HTTP request the Upstream Client may issue. -/
def DataSources : Type := HttpRequest → Except JSError JSVal

/-- Issue one request through the `dataSources.trackAPI` handle, recording it. -/
def callAPI (ds : DataSources) (req : HttpRequest) :
    List HttpRequest × Except JSError JSVal :=
  ([req], ds req)

/-- A Track DTO as delivered by the upstream catalog (data-model attributes
from the design document); resolvers destructure only the fields they use. -/
structure TrackDTO where
  id : String
  title : String
  authorId : String
  thumbnail : String
  length : Int
  modulesCount : Int
  numberOfViews : Int
deriving DecidableEq

/-- A Module DTO as delivered by the upstream catalog. -/
structure ModuleDTO where
  id : String
  title : String
  length : Int
  content : String
deriving DecidableEq

/-- `Query.tracksForHome` resolver: delegates to `getTracksForHome()`. -/
def Query.tracksForHome (ds : DataSources) :
    List HttpRequest × Except JSError JSVal :=
  callAPI ds TrackAPI.getTracksForHome

/-- `Query.track` resolver: delegates to `getTrack(id)`. -/
def Query.track (id : String) (ds : DataSources) :
    List HttpRequest × Except JSError JSVal :=
  callAPI ds (TrackAPI.getTrack id)

/-- `Query.module` resolver: delegates to `getModule(id)`. -/
def Query.module (id : String) (ds : DataSources) :
    List HttpRequest × Except JSError JSVal :=
  callAPI ds (TrackAPI.getModule id)

/-- `Track.author` resolver: destructures `authorId` from the parent and
delegates to `getAuthor(authorId)`. -/
def Track.author (parent : TrackDTO) (ds : DataSources) :
    List HttpRequest × Except JSError JSVal :=
  callAPI ds (TrackAPI.getAuthor parent.authorId)

/-- `Track.modules` resolver: destructures `id` from the parent and delegates
to `getTrackModules(id)`. -/
def Track.modules (parent : TrackDTO) (ds : DataSources) :
    List HttpRequest × Except JSError JSVal :=
  callAPI ds (TrackAPI.getTrackModules parent.id)

/-- `Track.durationInSeconds` resolver: identity projection of the parent's
`length`; issues no request. -/
def Track.durationInSeconds (parent : TrackDTO) : List HttpRequest × Int :=
  ([], parent.length)

/-- `Module.durationInSeconds` resolver: identity projection of the parent's
`length`; issues no request. -/
def Module.durationInSeconds (parent : ModuleDTO) : List HttpRequest × Int :=
  ([], parent.length)

/-- The `TrackViewMutationResult` wrapper the mutation resolver constructs. -/
structure MutationResult where
  code : Int
  success : Bool
  message : String
  track : JSVal

/-- `Mutation.incrementTrackViews` resolver. On a successful upstream call it
wraps the decoded body in a `{code: 200, success: true, message, track}`
record. On a thrown error it reads `err.extensions.response.status` and
`err.extensions.response.body`: each property read off an undefined value
raises a `TypeError`, which (the resolver being an async function) rejects
the resolver's promise, i.e. the error propagates to the GraphQL engine. -/
def Mutation.incrementTrackViews (id : String) (ds : DataSources) :
    List HttpRequest × Except JSError MutationResult :=
  match callAPI ds (TrackAPI.incrementTrackViews id) with
  | (calls, .ok track) =>
      (calls, .ok { code := 200, success := true,
                    message := "Successfully incremented number of views for track " ++ id,
                    track := track })
  | (calls, .error err) =>
      match err.extensions with
      | none => (calls, .error (jsTypeError msgReadingResponse))
      | some ext =>
          match ext.response with
          | none => (calls, .error (jsTypeError msgReadingStatus))
          | some resp =>
              (calls, .ok { code := resp.status, success := false,
                            message := resp.body, track := JSVal.null })

/-- Oracle for a run where the upstream answers every request with
HTTP 404 and body "Not found". -/
def dsNotFound : DataSources :=
  fun _ => .error (UpstreamHTTPError 404 "Not found")

/-- Oracle for a run where the upstream answers every request with the
decoded track record for track "1". -/
def dsTrackOne : DataSources :=
  fun _ => .ok (.obj [("id", .str "1"), ("length", .num 120)])

/-- Oracle for a run where every request fails with a network-level fault. -/
def dsTransportFault : DataSources :=
  fun _ => .error (UpstreamTransportError "request to upstream failed")

/-- Oracle for a run where the upstream call succeeds with a null body. -/
def dsOkNull : DataSources :=
  fun _ => .ok .null

/-- Helper: evaluation of the mutation resolver when the upstream call
succeeds. -/
theorem mutation_ok_run (id : String) (ds : DataSources) (track : JSVal)
    (h : ds (TrackAPI.incrementTrackViews id) = .ok track) :
    (Mutation.incrementTrackViews id ds).2 =
      .ok { code := 200, success := true,
            message := "Successfully incremented number of views for track " ++ id,
            track := track } := by
  simp [Mutation.incrementTrackViews, callAPI, h]

/-- Helper: evaluation of the mutation resolver when the upstream call fails
with an HTTP error carrying the structured response. -/
theorem mutation_httpError_run (id : String) (ds : DataSources)
    (status : Int) (body : String)
    (h : ds (TrackAPI.incrementTrackViews id) = .error (UpstreamHTTPError status body)) :
    (Mutation.incrementTrackViews id ds).2 =
      .ok { code := status, success := false, message := body, track := JSVal.null } := by
  simp [Mutation.incrementTrackViews, callAPI, h, UpstreamHTTPError]

/-- Helper: evaluation of the mutation resolver when the upstream call fails
with an error whose extensions property is undefined: the catch branch raises
a TypeError while reading .response. -/
theorem mutation_noExtensions_run (id : String) (ds : DataSources) (err : JSError)
    (hds : ds (TrackAPI.incrementTrackViews id) = .error err)
    (hext : err.extensions = none) :
    (Mutation.incrementTrackViews id ds).2 = .error (jsTypeError msgReadingResponse) := by
  simp [Mutation.incrementTrackViews, callAPI, hds, hext]

/-- Helper: evaluation of the mutation resolver when the upstream call fails
with an error whose extensions.response is undefined: the catch branch raises
a TypeError while reading .status. -/
theorem mutation_noResponse_run (id : String) (ds : DataSources) (err : JSError)
    (ext : ErrorExtensions)
    (hds : ds (TrackAPI.incrementTrackViews id) = .error err)
    (hext : err.extensions = some ext) (hresp : ext.response = none) :
    (Mutation.incrementTrackViews id ds).2 = .error (jsTypeError msgReadingStatus) := by
  simp [Mutation.incrementTrackViews, callAPI, hds, hext, hresp]

/-- Helper: a TypeError is a different error value from any transport error. -/
theorem typeError_ne_transportError (msg cause : String) :
    jsTypeError msg ≠ UpstreamTransportError cause := by
  intro h
  have h1 := congrArg JSError.name h
  simp [jsTypeError, UpstreamTransportError] at h1

/-- Claim C1: for every track id, when the Upstream Client call
incrementTrackViews(id) fails with an UpstreamHTTPError carrying a status and
body, Mutation.incrementTrackViews(id) returns exactly
{code: <upstream status>, success: false, message: <upstream response body>,
track: null}. -/
theorem incrementTrackViews_http_failure (id : String) (ds : DataSources)
    (status : Int) (body : String)
    (h : ds (TrackAPI.incrementTrackViews id) = .error (UpstreamHTTPError status body)) :
    (Mutation.incrementTrackViews id ds).2 =
      .ok { code := status, success := false, message := body, track := JSVal.null } :=
  mutation_httpError_run id ds status body h

/-- Witness for C1: upstream returns HTTP 404 with body "Not found" for track
999; the resolver returns {code: 404, success: false, message: "Not found",
track: null}. -/
theorem incrementTrackViews_http_failure_witness :
    (Mutation.incrementTrackViews "999" dsNotFound).2 =
      .ok { code := 404, success := false, message := "Not found", track := JSVal.null } :=
  incrementTrackViews_http_failure "999" dsNotFound 404 "Not found" rfl

/-- Claim C2: for every track id, when the Upstream Client call succeeds with
an updated Track DTO, Mutation.incrementTrackViews(id) returns exactly
{code: 200, success: true, message: "Successfully incremented number of views
for track <id>" (with the id interpolated), track: <the updated track>}. -/
theorem incrementTrackViews_success (id : String) (ds : DataSources) (track : JSVal)
    (h : ds (TrackAPI.incrementTrackViews id) = .ok track) :
    (Mutation.incrementTrackViews id ds).2 =
      .ok { code := 200, success := true,
            message := "Successfully incremented number of views for track " ++ id,
            track := track } :=
  mutation_ok_run id ds track h

/-- Witness for C2: upstream returns 200 with {id: "1", length: 120} for track
"1"; the resolver returns the success record carrying that track. -/
theorem incrementTrackViews_success_witness :
    (Mutation.incrementTrackViews "1" dsTrackOne).2 =
      .ok { code := 200, success := true,
            message := "Successfully incremented number of views for track 1",
            track := .obj [("id", .str "1"), ("length", .num 120)] } :=
  incrementTrackViews_success "1" dsTrackOne (.obj [("id", .str "1"), ("length", .num 120)]) rfl

/-- Counterexample to C3 as stated: (a) with a transport-level upstream fault
the mutation resolver does not return a result object — it itself fails with
a TypeError, which propagates to the caller; (b) with a successful upstream
call whose decoded body is null, the resolver returns success = true with
track = null, refuting "track is non-null iff success is true". -/
theorem incrementTrackViews_not_always_total :
    (Mutation.incrementTrackViews "1" dsTransportFault).2 =
      .error (jsTypeError msgReadingResponse)
    ∧ (Mutation.incrementTrackViews "5" dsOkNull).2 =
      .ok { code := 200, success := true,
            message := "Successfully incremented number of views for track 5",
            track := JSVal.null } :=
  ⟨rfl, rfl⟩

/-- Claim C3 (amended): for every track id, when the Upstream Client call
either succeeds or fails with an UpstreamHTTPError (a failure carrying the
structured response), Mutation.incrementTrackViews(id) returns a well-formed
result object (its code an integer and its success a boolean by
construction); track is null whenever success is false, and on a successful
call success is true and track is exactly the upstream value — hence non-null
exactly when the upstream value is. Failures without the structured response
instead make the resolver itself fail. -/
theorem incrementTrackViews_total_on_structured_outcomes (id : String)
    (ds : DataSources)
    (h : (∃ v, ds (TrackAPI.incrementTrackViews id) = .ok v) ∨
         (∃ status body,
           ds (TrackAPI.incrementTrackViews id) = .error (UpstreamHTTPError status body))) :
    ∃ r, (Mutation.incrementTrackViews id ds).2 = .ok r ∧
      (r.success = false → r.track = JSVal.null) ∧
      (∀ v, ds (TrackAPI.incrementTrackViews id) = .ok v →
        r.success = true ∧ r.track = v) := by
  rcases h with ⟨v, hv⟩ | ⟨status, body, he⟩
  · refine ⟨{ code := 200, success := true,
              message := "Successfully incremented number of views for track " ++ id,
              track := v },
      mutation_ok_run id ds v hv, by simp, ?_⟩
    intro w hw
    rw [hv] at hw
    cases hw
    exact ⟨rfl, rfl⟩
  · refine ⟨{ code := status, success := false, message := body, track := JSVal.null },
      mutation_httpError_run id ds status body he, fun _ => rfl, ?_⟩
    intro w hw
    rw [he] at hw
    cases hw

/-- Witness for the amended C3: upstream fails with HTTP 404 "Not found" on
track "2"; the resolver returns a result object with track = null. -/
theorem incrementTrackViews_total_witness :
    ∃ r, (Mutation.incrementTrackViews "2" dsNotFound).2 = .ok r ∧
      (r.success = false → r.track = JSVal.null) ∧
      (∀ v, dsNotFound (TrackAPI.incrementTrackViews "2") = .ok v →
        r.success = true ∧ r.track = v) :=
  incrementTrackViews_total_on_structured_outcomes "2" dsNotFound
    (Or.inr ⟨404, "Not found", rfl⟩)

/-- Counterexample to C4 as stated: with a transport-level fault the error
that reaches the GraphQL engine is not the original error unmodified — the
resolver replaces it with a TypeError raised inside the catch branch. -/
theorem transport_fault_not_propagated_unmodified :
    (Mutation.incrementTrackViews "1" dsTransportFault).2 ≠
      .error (UpstreamTransportError "request to upstream failed") := by
  intro h
  have h0 : (Mutation.incrementTrackViews "1" dsTransportFault).2 =
      .error (jsTypeError msgReadingResponse) := rfl
  rw [h0] at h
  injection h with h1
  exact typeError_ne_transportError msgReadingResponse "request to upstream failed" h1

/-- Claim C4 (amended): for every track id, when the Upstream Client call
fails with an UpstreamTransportError, the mutation resolver does not convert
it into a result object — an error does propagate to the GraphQL engine as a
field error — but the propagated error is a TypeError raised by the catch
branch while dereferencing the missing response structure, not the original
error unmodified. -/
theorem incrementTrackViews_transport_fault (id : String) (cause : String)
    (ds : DataSources)
    (h : ds (TrackAPI.incrementTrackViews id) = .error (UpstreamTransportError cause)) :
    (Mutation.incrementTrackViews id ds).2 = .error (jsTypeError msgReadingResponse)
    ∧ jsTypeError msgReadingResponse ≠ UpstreamTransportError cause :=
  ⟨mutation_noExtensions_run id ds (UpstreamTransportError cause) h rfl,
   typeError_ne_transportError msgReadingResponse cause⟩

/-- Witness for the amended C4: a concrete transport fault on track "3". -/
theorem incrementTrackViews_transport_fault_witness :
    (Mutation.incrementTrackViews "3" dsTransportFault).2 =
      .error (jsTypeError msgReadingResponse)
    ∧ jsTypeError msgReadingResponse ≠ UpstreamTransportError "request to upstream failed" :=
  incrementTrackViews_transport_fault "3" "request to upstream failed" dsTransportFault rfl

/-- Claim C5: the catch branch of Mutation.incrementTrackViews is only safe
when the caught error carries err.extensions.response with a status and body;
for every thrown failure lacking that structure the branch itself fails (with
a TypeError from reading a property of undefined) instead of producing the
documented result object. -/
theorem catch_branch_unsafe_without_structure (id : String) (ds : DataSources)
    (err : JSError)
    (hds : ds (TrackAPI.incrementTrackViews id) = .error err)
    (h : err.extensions = none ∨
         ∃ ext, err.extensions = some ext ∧ ext.response = none) :
    ∃ e, (Mutation.incrementTrackViews id ds).2 = .error e := by
  rcases h with hext | ⟨ext, hext, hresp⟩
  · exact ⟨jsTypeError msgReadingResponse, mutation_noExtensions_run id ds err hds hext⟩
  · exact ⟨jsTypeError msgReadingStatus, mutation_noResponse_run id ds err ext hds hext hresp⟩

/-- Witness for C5: a transport fault (no extensions structure) on track "9"
makes the resolver itself fail. -/
theorem catch_branch_unsafe_witness :
    ∃ e, (Mutation.incrementTrackViews "9" dsTransportFault).2 = .error e :=
  catch_branch_unsafe_without_structure "9" dsTransportFault
    (UpstreamTransportError "request to upstream failed") rfl (Or.inl rfl)

/-- Claim C6: for every parent object carrying a length attribute,
Track.durationInSeconds and Module.durationInSeconds each return exactly the
parent's length, and neither resolver issues any Upstream Client request. -/
theorem durationInSeconds_identity_no_call (t : TrackDTO) (m : ModuleDTO) :
    Track.durationInSeconds t = ([], t.length)
    ∧ Module.durationInSeconds m = ([], m.length) :=
  ⟨rfl, rfl⟩

/-- Claim C7: each delegating resolver (Query.tracksForHome, Query.track,
Query.module, Track.author, Track.modules) issues exactly one Upstream Client
request, with its argument passed unchanged into the request, and its result
is exactly the outcome of that request — so a successful value is returned
unmodified and a failure propagates unmodified to the GraphQL engine. -/
theorem delegating_resolvers_single_call_pass_through (ds : DataSources)
    (id : String) (t : TrackDTO) :
    Query.tracksForHome ds = ([TrackAPI.getTracksForHome], ds TrackAPI.getTracksForHome)
    ∧ Query.track id ds = ([TrackAPI.getTrack id], ds (TrackAPI.getTrack id))
    ∧ Query.module id ds = ([TrackAPI.getModule id], ds (TrackAPI.getModule id))
    ∧ Track.author t ds = ([TrackAPI.getAuthor t.authorId], ds (TrackAPI.getAuthor t.authorId))
    ∧ Track.modules t ds = ([TrackAPI.getTrackModules t.id], ds (TrackAPI.getTrackModules t.id)) :=
  ⟨rfl, rfl, rfl, rfl, rfl⟩

/-- Claim C8: for every valid track id, if the upstream GET single-resource
endpoint answers with a record whose id equals the requested id, then
Query.track(id) returns a Track whose id field equals the id argument. -/
theorem track_roundtrip_id (id : String) (ds : DataSources) (v : JSVal)
    (hcall : ds (TrackAPI.getTrack id) = .ok v)
    (hid : v.getField "id" = some (.str id)) :
    ∃ w, (Query.track id ds).2 = .ok w ∧ w.getField "id" = some (.str id) :=
  ⟨v, by simp [Query.track, callAPI, hcall], hid⟩

/-- Witness for C8: the upstream answers GET track/1 with
{id: "1", length: 120}; Query.track("1") returns a record whose id is "1". -/
theorem track_roundtrip_id_witness :
    ∃ w, (Query.track "1" dsTrackOne).2 = .ok w ∧ w.getField "id" = some (.str "1") :=
  track_roundtrip_id "1" dsTrackOne (.obj [("id", .str "1"), ("length", .num 120)]) rfl rfl

/-- Claim C9: the Upstream Client maps its six operations to exactly these
HTTP requests against the fixed base URL, interpolating the id into the path:
GET tracks, GET author/{id}, GET track/{id}, GET track/{id}/modules,
GET module/{id}, and PATCH track/{id}/numberOfViews with no body. -/
theorem trackAPI_request_mapping (id : String) :
    TrackAPI.baseURL = "https://odyssey-lift-off-rest-api.herokuapp.com/"
    ∧ TrackAPI.getTracksForHome = { method := .get, path := "tracks", body := none }
    ∧ TrackAPI.getAuthor id = { method := .get, path := "author/" ++ id, body := none }
    ∧ TrackAPI.getTrack id = { method := .get, path := "track/" ++ id, body := none }
    ∧ TrackAPI.getTrackModules id =
        { method := .get, path := "track/" ++ id ++ "/modules", body := none }
    ∧ TrackAPI.getModule id = { method := .get, path := "module/" ++ id, body := none }
    ∧ TrackAPI.incrementTrackViews id =
        { method := .patch, path := "track/" ++ id ++ "/numberOfViews", body := none } :=
  ⟨rfl, rfl, rfl, rfl, rfl, rfl, rfl⟩

/-- Claim C10: the success path places the upstream return value into the
result's track field without inspecting it: a successful upstream response
whose decoded body is null yields a result with success = true, code = 200
and track = null. -/
theorem success_with_null_body_yields_null_track :
    (Mutation.incrementTrackViews "7" dsOkNull).2 =
      .ok { code := 200, success := true,
            message := "Successfully incremented number of views for track 7",
            track := JSVal.null } :=
  rfl
